import Mathlib

/-!
Verification of the voice AI assistant's retrieval-augmented conversation core.

Shallow embedding of:
  - src/agent/graph.py        (agent graph orchestrator, run_agent_with_history)
  - src/agent/state.py        (AgentState record)
  - src/agent/prompts.py      (PROMPTS table, get_prompt)
  - src/tools/search_sop.py   (search_sop_tool, get_procedure)
  - src/services/sop_service.py (get_retriever, search_sop, search_sop_with_scores)
  - scripts/create_sop_index.py (MetadataEnricher.enrich, EmbeddingsService.initialize,
                                 SOPIndexer.run)

External collaborators (the hosted chat model, the tool executor, the FAISS
vector store / embedding service) are modelled as oracle functions passed in
as parameters; everything the repository itself computes is embedded directly.
Python floats in the position computation are modelled by exact rationals,
and Python wall-clock timestamps are passed in as an opaque parameter.
-/

/-! ## Messages (langchain_core.messages as used by the repository)

A tool call request carried by an AI message is a (name, arguments) pair.
Only `ai` messages carry tool calls; `hasattr(m, 'tool_calls')` is true
exactly for them.
-/

/-- A tool call requested by the model: tool name and its string argument. -/
def ToolCallReq : Type := String × String

deriving instance DecidableEq for ToolCallReq

/-- Role-tagged message, mirroring SystemMessage / HumanMessage / AIMessage /
ToolMessage as the repository uses them. -/
inductive Msg
  | system (content : String)
  | human (content : String)
  | ai (content : String) (tool_calls : List ToolCallReq)
  | tool (content : String)
deriving DecidableEq

/-- The `content` attribute every message object carries. -/
def Msg.content : Msg → String
  | .system c => c
  | .human c => c
  | .ai c _ => c
  | .tool c => c

/-- `isinstance(m, SystemMessage)`. -/
def Msg.isSystem : Msg → Bool
  | .system _ => true
  | _ => false

/-- Messages a turn may append to the log: assistant replies and tool results. -/
def Msg.isTurnOutput : Msg → Bool
  | .ai _ _ => true
  | .tool _ => true
  | _ => false

/-! ## Prompts (src/agent/prompts.py) -/

/-- SYSTEM_PROMPT from src/agent/prompts.py (verbatim). -/
def SYSTEM_PROMPT : String :=
  "You are Sarah, a friendly and professional voice assistant for WellStreet Urgent Care clinic.\n\nYour role is to assist patients who call the clinic with:\n- Scheduling, rescheduling, or cancelling appointments\n- Answering questions about walk-in availability\n- Providing directions to the clinic\n- Explaining wait times\n- Handling late arrival inquiries\n- Assisting with online booking\n\nIMPORTANT GUIDELINES:\n1. Always be warm, polite, and professional\n2. Keep responses concise and conversational - this is a VOICE call, not text chat\n3. Use the SOP tools to find accurate information before responding\n4. Never make up information - always search the SOP first\n5. If you don't know something, offer to help find out or transfer to staff\n\nVOICE-SPECIFIC RULES:\n- Keep responses SHORT (1-3 sentences when possible)\n- Avoid bullet points or lists - speak naturally\n- Don't say \"according to the SOP\" or \"based on our procedures\" - just provide the information naturally\n- Use conversational phrases like \"Sure!\", \"Of course!\", \"Let me check that for you\"\n- Confirm understanding before ending the call\n\nCRITICAL - DO NOT REPEAT GREETING:\n- The greeting \"Thank you for calling WellStreet Urgent Care. This is Sarah. How may I help you today?\" should ONLY be said at the START of a NEW call.\n- NEVER repeat the greeting in the middle of a conversation.\n- If the conversation has already started, DO NOT say \"Thank you for calling\" again.\n- Just respond naturally to what the caller is asking.\n\nSCHEDULING:\n- All appointments are scheduled through the website\n- Offer to send the scheduling link\n- Walk-ins are always available as an alternative\n- Do NOT ask for specific dates/times - we can't check availability\n\nEMPATHY:\n- Acknowledge the patient naturally\n- Keep a calm, helpful tone\n- Long emotional statements are NOT required - natural acknowledgment is sufficient\n"

/-- ERROR_RESPONSE_PROMPT from src/agent/prompts.py (verbatim). -/
def ERROR_RESPONSE_PROMPT : String :=
  "I apologize, but I'm having trouble accessing that information right now. Let me connect you with one of our staff members who can help you directly. Would you like me to transfer you, or is there something else I can help you with?"

/-- NO_RESULTS_PROMPT from src/agent/prompts.py (verbatim). -/
def NO_RESULTS_PROMPT : String :=
  "I don't have specific information about that in our system. Let me check with our staff to get you the correct answer. Can you hold for just a moment, or would you prefer I have someone call you back?"

/-- CLARIFICATION_PROMPT from src/agent/prompts.py (verbatim). -/
def CLARIFICATION_PROMPT : String :=
  "I want to make sure I help you correctly. Could you tell me a bit more about what you're looking for? Are you calling about an appointment, or do you have a general question about our clinic?"

/-- CLOSING_PROMPT from src/agent/prompts.py (verbatim). -/
def CLOSING_PROMPT : String :=
  "Is there anything else I can help you with today?"

/-- GOODBYE_PROMPT from src/agent/prompts.py (verbatim). -/
def GOODBYE_PROMPT : String :=
  "Thank you for calling WellStreet Urgent Care. Have a great day!"

/-- HOLD_PROMPT from src/agent/prompts.py (verbatim). -/
def HOLD_PROMPT : String :=
  "I'll need just a moment to look that up for you. Please hold briefly."

/-- RETURN_FROM_HOLD_PROMPT from src/agent/prompts.py (verbatim). -/
def RETURN_FROM_HOLD_PROMPT : String :=
  "Thank you for holding. I have that information for you now."

/-- TRANSFER_PROMPT from src/agent/prompts.py (verbatim). -/
def TRANSFER_PROMPT : String :=
  "I'll connect you with one of our team members who can help you with that. Please hold while I transfer you."

/-- SCHEDULING_PROMPT from src/agent/prompts.py (verbatim). -/
def SCHEDULING_PROMPT : String :=
  "All appointments are scheduled through our website. I can send you the scheduling link if you'd like. Would that be helpful?"

/-- RESCHEDULE_PROMPT from src/agent/prompts.py (verbatim). -/
def RESCHEDULE_PROMPT : String :=
  "You can reschedule your appointment through our website. If you're having trouble with the website, I can help you reschedule over the phone. Which would you prefer?"

/-- CANCEL_PROMPT from src/agent/prompts.py (verbatim). -/
def CANCEL_PROMPT : String :=
  "You can cancel your appointment through our website. Would you like me to send you the link, or would you prefer I help you cancel it now?"

/-- WALKIN_PROMPT from src/agent/prompts.py (verbatim). -/
def WALKIN_PROMPT : String :=
  "Yes, we do accept walk-ins! You're welcome to come in anytime during our hours. Just keep in mind that wait times may vary depending on how busy we are."

/-- LATE_ARRIVAL_PROMPT from src/agent/prompts.py (verbatim). -/
def LATE_ARRIVAL_PROMPT : String :=
  "I understand you're running late. Our policy is that if you're more than 15 minutes late, we may need to reschedule your appointment. Would you like me to help you find the next available slot?"

/-- DIRECTIONS_PROMPT from src/agent/prompts.py (verbatim). -/
def DIRECTIONS_PROMPT : String :=
  "I'd be happy to help you find us. Could you tell me where you're coming from, and I'll give you the best directions?"

/-- WAIT_TIMES_PROMPT from src/agent/prompts.py (verbatim). -/
def WAIT_TIMES_PROMPT : String :=
  "Wait times can vary depending on patient volume and the urgency of cases being treated. Would you like me to check on the current wait time for you?"

/-- ONLINE_BOOKING_PROMPT from src/agent/prompts.py (verbatim). -/
def ONLINE_BOOKING_PROMPT : String :=
  "You can book an appointment on our website. I can send you the direct link if you'd like. If you prefer, you're also welcome to walk in."

/-- VOICE_RESPONSE_PROMPT from src/agent/prompts.py (verbatim; the braces are
the Python format placeholders of the source string). -/
def VOICE_RESPONSE_PROMPT : String :=
  "Based on the SOP information retrieved, generate a natural spoken response.\n\nRULES:\n1. Keep it SHORT - this will be spoken aloud (1-3 sentences ideal)\n2. Be conversational, not robotic\n3. Don't mention \"SOP\", \"procedures\", or \"documents\" - speak naturally\n4. Include only the most relevant information\n5. End with a follow-up question if appropriate\n\nSOP Information:\n{context}\n\nCaller's Question:\n{query}\n\nGenerate a natural, concise voice response:"

/-- TOOL_SELECTION_PROMPT from src/agent/prompts.py (verbatim). -/
def TOOL_SELECTION_PROMPT : String :=
  "Analyze the caller's request and determine the best action.\n\nAvailable Tools:\n1. search_sop_tool - Search SOP for any relevant information\n2. get_procedure - Get specific procedure by topic name\n\nCommon Topics for get_procedure:\n- greeting, scheduling, cancellation, reschedule\n- walk-in, directions, wait times, late arrival\n- online booking, closing, hold, communication\n\nCaller's Request: {query}\n\nIf the request matches a specific topic, use get_procedure.\nIf the request is general or unclear, use search_sop_tool.\nIf the request is a simple greeting or closing, respond directly without tools.\n\nDecision:"

/-- The PROMPTS dictionary from src/agent/prompts.py, as an association list
in source order. -/
def PROMPTS : List (String × String) :=
  [("system", SYSTEM_PROMPT),
   ("voice_response", VOICE_RESPONSE_PROMPT),
   ("tool_selection", TOOL_SELECTION_PROMPT),
   ("error", ERROR_RESPONSE_PROMPT),
   ("no_results", NO_RESULTS_PROMPT),
   ("clarification", CLARIFICATION_PROMPT),
   ("closing", CLOSING_PROMPT),
   ("goodbye", GOODBYE_PROMPT),
   ("hold", HOLD_PROMPT),
   ("return_from_hold", RETURN_FROM_HOLD_PROMPT),
   ("transfer", TRANSFER_PROMPT),
   ("scheduling", SCHEDULING_PROMPT),
   ("reschedule", RESCHEDULE_PROMPT),
   ("cancel", CANCEL_PROMPT),
   ("walkin", WALKIN_PROMPT),
   ("late_arrival", LATE_ARRIVAL_PROMPT),
   ("directions", DIRECTIONS_PROMPT),
   ("wait_times", WAIT_TIMES_PROMPT),
   ("online_booking", ONLINE_BOOKING_PROMPT)]

/-- `get_prompt(name)`: `PROMPTS.get(name, "")`. -/
def get_prompt (name : String) : String :=
  match PROMPTS.lookup name with
  | some p => p
  | none => ""

/-! ## Agent state (src/agent/state.py)

`AgentState` is a TypedDict whose `messages` channel uses the `add_messages`
reducer; the repository's nodes always return the previous message list with
new messages appended, so the reducer semantics is plain append and the state
is modelled with an ordinary list. -/

/-- The AgentState record of src/agent/state.py. -/
structure AgentStateL where
  messages : List Msg
  context : Option String
  current_query : Option String
  tool_calls : List String
  response : Option String
  error : Option String
  call_stage : String
deriving DecidableEq

/-! ## Graph nodes (src/agent/graph.py)

The hosted chat model is an oracle: given the message list it either returns
an assistant reply (content plus requested tool calls) or raises.  The tool
executor (langgraph's prebuilt ToolNode) is an oracle: given the requested
tool calls it either returns the tool result messages' contents or raises. -/

/-- Oracle for `llm.invoke`: reply content and tool calls, or an exception. -/
def ModelFn : Type := List Msg → Except String (String × List ToolCallReq)

/-- Oracle for `ToolNode(sop_tools).invoke`: the produced tool messages'
contents, or an exception. -/
def ToolsFn : Type := List ToolCallReq → Except String (List String)

/-- The system-prompt insertion at the top of `agent_node`:
`if not messages or not isinstance(messages[0], SystemMessage): insert`. -/
def ensureSystem (msgs : List Msg) : List Msg :=
  match msgs with
  | Msg.system _ :: _ => msgs
  | _ => Msg.system SYSTEM_PROMPT :: msgs

/-- `agent_node` of src/agent/graph.py.  On success the model reply is
appended to the message log and `response` is set to its content; an
exception is caught, recorded in `error` and `response` is set to the
canned error prompt (the message log is unchanged). -/
def agent_node (model : ModelFn) (st : AgentStateL) : AgentStateL :=
  match model (ensureSystem st.messages) with
  | .ok r =>
      { st with messages := st.messages ++ [Msg.ai r.1 r.2], response := some r.1 }
  | .error e =>
      { st with error := some e, response := some (get_prompt "error") }

/-- `tool_node` of src/agent/graph.py.  Reads the last message; if it carries
no tool calls the state is returned unchanged; otherwise the tool executor
runs and its result messages are appended (`context` is set to the last
result's content).  An exception from the executor is caught and recorded in
`error` with the message log unchanged; an empty message list raises
IndexError inside the try block, which the same handler catches. -/
def tool_node (tools : ToolsFn) (st : AgentStateL) : AgentStateL :=
  match st.messages.getLast? with
  | none => { st with error := some "list index out of range" }
  | some (Msg.ai _ (tc :: tcs)) =>
      (match tools (tc :: tcs) with
       | .ok outs =>
           { st with
             messages := st.messages ++ outs.map Msg.tool,
             context := match outs.getLast? with
                        | some last => some last
                        | none => none }
       | .error e => { st with error := some e })
  | some _ => st

/-- `response_node` of src/agent/graph.py: takes the last message's content
as the final response when it is non-empty, the canned error prompt
otherwise.  An empty message list raises IndexError, caught by the handler
which records the error and falls back to the error prompt. -/
def response_node (st : AgentStateL) : AgentStateL :=
  match st.messages.getLast? with
  | none =>
      { st with error := some "list index out of range",
                response := some (get_prompt "error") }
  | some m =>
      { st with response := some (if m.content = "" then get_prompt "error" else m.content) }

/-- `should_use_tools`: routes to the tools node exactly when the last
message has a non-empty `tool_calls` attribute (only AI messages have one). -/
def should_use_tools (st : AgentStateL) : Bool :=
  match st.messages.getLast? with
  | some (Msg.ai _ (_ :: _)) => true
  | _ => false

/-! ## Graph executor (build_agent_graph + langgraph invoke)

`build_agent_graph` wires: entry -> agent; agent -> tools or response (by
`should_use_tools`); tools -> agent; response -> END.  It sets no iteration
bound of its own; `graph.compile()` and `agent.invoke(state)` are called
without any recursion-limit configuration, so the langgraph runtime default
applies (25 super-steps), surfacing as a GraphRecursionError exception when
exhausted.  The executor below runs that wiring with an explicit step budget
`fuel` (the runtime recursion limit); the final `Nat` counts tools-node
executions (tool-call round trips), instrumentation used by the analysis. -/

/-- Nodes of the compiled graph. -/
inductive GNode
  | agent
  | tools
  | response

/-- One turn of the compiled graph: run from `node` with `fuel` remaining
super-steps, accumulating the count of tools-node executions. -/
def agentGraphRun (model : ModelFn) (tools : ToolsFn) :
    Nat → GNode → AgentStateL → Nat → Except (String × Nat) (AgentStateL × Nat)
  | 0, _, _, rounds => .error ("GraphRecursionError", rounds)
  | fuel + 1, GNode.agent, st, rounds =>
      let st' := agent_node model st
      if should_use_tools st' then agentGraphRun model tools fuel GNode.tools st' rounds
      else agentGraphRun model tools fuel GNode.response st' rounds
  | fuel + 1, GNode.tools, st, rounds =>
      agentGraphRun model tools fuel GNode.agent (tool_node tools st) (rounds + 1)
  | _ + 1, GNode.response, st, rounds => .ok (response_node st, rounds)

/-- `agent.invoke(state)`: the compiled graph entered at the agent node. -/
def agent_invoke (model : ModelFn) (tools : ToolsFn) (fuel : Nat) (st : AgentStateL) :
    Except (String × Nat) (AgentStateL × Nat) :=
  agentGraphRun model tools fuel GNode.agent st 0

/-- The state `run_agent_with_history` builds before invoking the graph:
system prompt, then the prior history, then the new user message. -/
def initTurnState (query : String) (history : List Msg) : AgentStateL :=
  { messages := Msg.system SYSTEM_PROMPT :: (history ++ [Msg.human query]),
    context := none,
    current_query := some query,
    tool_calls := [],
    response := none,
    error := none,
    call_stage := "main" }

/-- `run_agent_with_history(query, history)` of src/agent/graph.py.  Returns
`(response, updated_history)`; the response is `result.get("response", ...)`
(the state's `response` channel, which Python would hand back even if it were
None, hence `Option String`), and the updated history is the result's
messages with system messages filtered out.  Any exception escaping the graph
invocation is caught and converted to `(error prompt, history or [])`. -/
def run_agent_with_history (model : ModelFn) (tools : ToolsFn) (fuel : Nat)
    (query : String) (history : List Msg) : Option String × List Msg :=
  match agent_invoke model tools fuel (initTurnState query history) with
  | .ok (result, _) =>
      (result.response, result.messages.filter (fun m => !m.isSystem))
  | .error _ => (some (get_prompt "error"), history)

/-- Number of tool-call round trips (tools-node executions) a turn performs,
whether it finishes or hits the runtime recursion limit. -/
def runToolRounds (model : ModelFn) (tools : ToolsFn) (fuel : Nat)
    (query : String) (history : List Msg) : Nat :=
  match agent_invoke model tools fuel (initTurnState query history) with
  | .ok (_, r) => r
  | .error (_, r) => r

/-! Concrete oracles used by counterexamples and witnesses. -/

/-- A model that always answers with fixed plain content and no tool calls. -/
def modelPlain : ModelFn := fun _ => .ok ("Sure, I can help with that.", [])

/-- A model whose invocation always raises. -/
def modelDown : ModelFn := fun _ => .error "model down"

/-- A model that requests a tool call on every invocation. -/
def modelAlwaysTool : ModelFn := fun _ => .ok ("", [("search_sop_tool", "walk in")])

/-- A tool executor that answers every call with its argument. -/
def toolsEcho : ToolsFn := fun tcs => .ok (tcs.map (fun tc => tc.2))

/-- A tool executor whose execution always raises. -/
def toolsDown : ToolsFn := fun _ => .error "tool down"

/-- A short prior conversation (one user and one assistant message). -/
def histDemo : List Msg := [Msg.human "Hi", Msg.ai "Hello!" []]

/-! ## SOP service (src/services/sop_service.py)

The FAISS vector store is an external collaborator; retrieval is an oracle
taking the query and the number of results requested.  Documents carry their
content and the optional `chunk_id` metadata entry.  Relevance scores
(Python floats) are modelled as rationals. -/

/-- A retrieved LangChain Document: `page_content` plus the metadata the
repository reads (`metadata.get("chunk_id")`). -/
structure SDoc where
  page_content : String
  chunk_id : Option String
deriving DecidableEq

/-- The `k = top_k or config["top_k"]` resolution shared by `get_retriever`
and `search_sop_with_scores`: Python `or` yields the configured default for a
falsy `top_k` (None or 0). -/
def effectiveK : Option Nat → Nat → Nat
  | some k, cfgK => if k = 0 then cfgK else k
  | none, cfgK => cfgK

/-- `get_retriever(top_k)`: a retriever over the loaded vector store with
`search_kwargs={"k": k}`, `k = top_k or config["top_k"]`. -/
def get_retriever (retrieve : String → Nat → List SDoc)
    (top_k : Option Nat) (cfgK : Nat) : String → List SDoc :=
  fun query => retrieve query (effectiveK top_k cfgK)

/-- `search_sop(query, top_k=None)`: `get_retriever(top_k).invoke(query)`. -/
def search_sop (retrieve : String → Nat → List SDoc) (cfgK : Nat)
    (query : String) (top_k : Option Nat) : List SDoc :=
  get_retriever retrieve top_k cfgK query

/-- `search_sop_with_scores(query, top_k=None)`:
`vectorstore.similarity_search_with_score(query, k=top_k or config["top_k"])`. -/
def search_sop_with_scores (vs : String → Nat → List (SDoc × Rat)) (cfgK : Nat)
    (query : String) (top_k : Option Nat) : List (SDoc × Rat) :=
  vs query (effectiveK top_k cfgK)

/-! ## SOP tools (src/tools/search_sop.py) -/

/-- Python `str.strip()`: remove leading and trailing whitespace.  (Defined
over the character list so that it evaluates inside the kernel.) -/
def pyStrip (s : String) : String :=
  String.mk (((s.data.dropWhile Char.isWhitespace).reverse.dropWhile Char.isWhitespace).reverse)

/-- `search_sop_tool(query)`: formats the retrieved documents as
`[chunk-id]\ncontent` blocks joined by a separator, falling back to the
fixed no-results sentinel.  `enumerate(documents, 1)` supplies the
`result_i` default chunk id. -/
def search_sop_tool (retrieve : String → Nat → List SDoc) (cfgK : Nat)
    (query : String) : String :=
  let documents := search_sop retrieve cfgK query none
  if documents.isEmpty then "No relevant procedures found for this query."
  else
    String.intercalate "\n\n---\n\n"
      (documents.enum.map (fun p =>
        "[" ++ (p.2.chunk_id.getD ("result_" ++ Nat.repr (p.1 + 1))) ++ "]\n"
          ++ pyStrip p.2.page_content))

/-- The `topic_queries` rewrite table of `get_procedure` (verbatim). -/
def topic_queries : List (String × String) :=
  [("greeting", "greeting caller opening phone answer"),
   ("scheduling", "schedule new appointment booking"),
   ("cancellation", "cancel appointment cancellation"),
   ("reschedule", "reschedule change appointment"),
   ("walk-in", "walk-in without appointment availability"),
   ("directions", "directions location clinic address"),
   ("wait times", "wait time current delay how long"),
   ("late arrival", "late arrival 15 minute policy running late"),
   ("online booking", "online website scheduling book appointment"),
   ("closing", "closing end call goodbye hang up"),
   ("hold", "hold waiting please hold"),
   ("communication", "communication guidelines tone professional")]

/-- `get_procedure(topic)`: rewrites the lowercased topic through
`topic_queries` (falling back to the raw topic), searches via
`search_sop(search_query)` — i.e. with `top_k=None`, hence the configured
default top-K — and returns the first result's stripped content behind the
`Procedure for '<topic>':` banner, or the no-procedure message. -/
def get_procedure (retrieve : String → Nat → List SDoc) (cfgK : Nat)
    (topic : String) : String :=
  let search_query := (topic_queries.lookup topic.toLower).getD topic
  let documents := search_sop retrieve cfgK search_query none
  match documents with
  | [] => "No procedure found for topic: " ++ topic
  | top_doc :: _ =>
      "Procedure for '" ++ topic ++ "':\n\n" ++ pyStrip top_doc.page_content

/-- A retriever that reports the number of results requested of it as the
content of a single returned chunk; used to observe which `k` the tools ask
the vector store for. -/
def probeRetrieve : String → Nat → List SDoc :=
  fun _ k => [{ page_content := Nat.repr k, chunk_id := none }]

/-- A one-chunk index whose only chunk answers every query. -/
def demoRetrieve : String → Nat → List SDoc :=
  fun _ _ => [{ page_content := " Walk-ins are welcome during business hours. ",
                chunk_id := some "chunk_001" }]

/-- An empty index: retrieval returns nothing. -/
def emptyRetrieve : String → Nat → List SDoc := fun _ _ => []

/-- A scored retriever fixture. -/
def demoScored : String → Nat → List (SDoc × Rat) :=
  fun _ _ => [({ page_content := "Walk-ins are welcome.", chunk_id := some "chunk_001" },
               (1 : Rat) / 2)]

/-! ## Index builder (scripts/create_sop_index.py) -/

/-- A chunk as produced by the text splitter, before enrichment: content and
the `source` metadata entry the loader attached (absent for sources the
loader did not tag). -/
structure RawChunk where
  page_content : String
  source : Option String
deriving DecidableEq

/-- Decimal digits of `n`, little-endian, by structural recursion on a fuel
argument (`digitsAux n n` suffices since `n / 10 < n`). -/
def digitsAux : Nat → Nat → List Nat
  | 0, _ => []
  | _ + 1, 0 => []
  | fuel + 1, n + 1 => (n + 1) % 10 :: digitsAux fuel ((n + 1) / 10)

/-- Little-endian decimal digits of `n` (empty for 0). -/
def decDigits (n : Nat) : List Nat := digitsAux n n

/-- Value of a little-endian decimal digit list. -/
def fromDigits : List Nat → Nat
  | [] => 0
  | d :: l => d + 10 * fromDigits l

/-- The character for a decimal digit. -/
def digitChar (d : Nat) : Char := Char.ofNat (48 + d)

/-- The digit value of a decimal digit character. -/
def charVal (c : Char) : Nat := c.toNat - 48

/-- Decimal rendering of `n`, most significant digit first. -/
def renderNat (n : Nat) : List Char := (decDigits n).reverse.map digitChar

/-- Python `f"{n:03d}"`: decimal rendering left-padded with zeros to width 3. -/
def pad3 (n : Nat) : List Char :=
  List.replicate (3 - (renderNat n).length) '0' ++ renderNat n

/-- Python `f"chunk_{n:03d}"`. -/
def chunkIdOf (n : Nat) : String :=
  String.mk ('c' :: 'h' :: 'u' :: 'n' :: 'k' :: '_' :: pad3 n)

/-- The sequence number embedded in a chunk id: parse the decimal digits
after the 6-character `chunk_` banner. -/
def idNum (s : String) : Nat :=
  fromDigits ((s.data.drop 6).map charVal).reverse

/-- Python `len(content.split())`: number of whitespace-separated words. -/
def pyWordCount (s : String) : Nat :=
  ((s.split Char.isWhitespace).filter (fun w => w ≠ "")).length

/-- `position_pct = (i / total_chunks) * 100` with the source's threshold
tests; the Python float arithmetic is modelled by exact rationals. -/
def positionOf (i total : Nat) : String :=
  if ((i : Rat) / (total : Rat)) * 100 < 20 then "beginning"
  else if 80 < ((i : Rat) / (total : Rat)) * 100 then "end"
  else "middle"

/-- The metadata record `MetadataEnricher.enrich` attaches to a chunk. -/
structure ChunkMeta where
  chunk_id : String
  index : Nat
  total_chunks : Nat
  char_count : Nat
  word_count : Nat
  position : String
  source : String
  indexed_at : String
deriving DecidableEq

/-- An enriched chunk document. -/
structure EnrichedDoc where
  page_content : String
  metadata : ChunkMeta
deriving DecidableEq

/-- The body of the enrichment loop for the chunk at 0-based position `i` of
`total` chunks; `now` models `datetime.now().isoformat()`. -/
def enrichOne (total : Nat) (now : String) (i : Nat) (c : RawChunk) : EnrichedDoc :=
  { page_content := c.page_content,
    metadata :=
      { chunk_id := chunkIdOf (i + 1),
        index := i + 1,
        total_chunks := total,
        char_count := c.page_content.length,
        word_count := pyWordCount c.page_content,
        position := positionOf i total,
        source := c.source.getD "unknown",
        indexed_at := now } }

/-- `MetadataEnricher.enrich(chunks)`. -/
def enrich (now : String) (chunks : List RawChunk) : List EnrichedDoc :=
  chunks.enum.map (fun p => enrichOne chunks.length now p.1 p.2)

/-! ## Embedding initialization retry (EmbeddingsService) -/

/-- Outcome of one initialization attempt: the `embed_query("test")` probe
either raises or returns a vector of some length (a falsy result — None or
empty — does not count as success). -/
inductive AttemptOutcome
  | raised (msg : String)
  | returned (dim : Nat)

/-- Whether an attempt failed (raised, or returned a falsy test vector). -/
def AttemptOutcome.isFailure : AttemptOutcome → Bool
  | .raised _ => true
  | .returned d => d = 0

/-- `EmbeddingsService.MAX_RETRIES`. -/
def MAX_RETRIES : Nat := 3

/-- `EmbeddingsService.RETRY_DELAY` (seconds). -/
def RETRY_DELAY : Nat := 2

/-- The `for attempt in range(1, MAX_RETRIES + 1)` loop of
`EmbeddingsService.initialize`, over the remaining attempt numbers; returns
(success, sleep durations performed, attempts executed).  A sleep of
RETRY_DELAY happens only when an attempt raised and further attempts remain
(`attempt < MAX_RETRIES`); a falsy probe result just falls through to the
next attempt. -/
def runAttempts (outcomes : Nat → AttemptOutcome) : List Nat → Bool × List Nat × Nat
  | [] => (false, [], 0)
  | a :: rest =>
      match outcomes a with
      | .returned d =>
          if 0 < d then (true, [], 1)
          else
            let r := runAttempts outcomes rest
            (r.1, r.2.1, r.2.2 + 1)
      | .raised _ =>
          let r := runAttempts outcomes rest
          match rest with
          | [] => (r.1, r.2.1, r.2.2 + 1)
          | _ :: _ => (r.1, RETRY_DELAY :: r.2.1, r.2.2 + 1)

/-- `EmbeddingsService.initialize()` with the per-attempt outcomes supplied
by the environment. -/
def initEmbeddings (outcomes : Nat → AttemptOutcome) : Bool × List Nat × Nat :=
  runAttempts outcomes ((List.range MAX_RETRIES).map (fun i => i + 1))

/-! ## Build pipeline (SOPIndexer.run) -/

/-- The environment a build run interacts with: configuration validation,
document discovery and loading, the splitter's output, the per-attempt
embedding outcomes, and the success of the index create/save/validate
steps performed by the external FAISS collaborator. -/
structure PipelineEnv where
  missingVars : List String
  docPaths : List String
  documents : List RawChunk
  chunks : List RawChunk
  outcomes : Nat → AttemptOutcome
  createOk : Bool
  saveOk : Bool
  validateOk : Bool
  now : String

/-- Observable outcome of a build run: the boolean `run()` returns, and
whether the FAISS index was created in memory / persisted to disk. -/
structure RunResult where
  success : Bool
  indexCreated : Bool
  indexSaved : Bool
deriving DecidableEq

/-- `SOPIndexer.run()`: the step sequence of the pipeline.  Steps 0-2 bail
out on invalid config, no documents found, or nothing loadable; step 5 bails
out when embedding initialization fails (before any index is created or
written); steps 6-8 bail out on create/save/validate failure. -/
def sopIndexerRun (env : PipelineEnv) : RunResult :=
  if env.missingVars.isEmpty = false then ⟨false, false, false⟩
  else if env.docPaths.isEmpty then ⟨false, false, false⟩
  else if env.documents.isEmpty then ⟨false, false, false⟩
  else
    let _enriched := enrich env.now env.chunks
    if (initEmbeddings env.outcomes).1 = false then ⟨false, false, false⟩
    else if env.createOk = false then ⟨false, false, false⟩
    else if env.saveOk = false then ⟨false, true, false⟩
    else if env.validateOk = false then ⟨false, true, true⟩
    else ⟨true, true, true⟩

/-- A pipeline environment whose embedding service is unreachable: every
initialization attempt raises. -/
def envEmbedDown : PipelineEnv :=
  { missingVars := [],
    docPaths := ["wellstreet_sop.docx"],
    documents := [{ page_content := "Walk-ins are welcome.", source := some "wellstreet_sop.docx" }],
    chunks := [{ page_content := "Walk-ins are welcome.", source := some "wellstreet_sop.docx" }],
    outcomes := fun _ => .raised "connection error",
    createOk := true,
    saveOk := true,
    validateOk := true,
    now := "2026-10-12T00:00:00" }

/-- Demonstration chunk list (five chunks from one source document). -/
def demoChunks : List RawChunk :=
  [{ page_content := "Greet the caller warmly.", source := some "sop.docx" },
   { page_content := "Schedule appointments through the website.", source := some "sop.docx" },
   { page_content := "Walk-ins are always welcome.", source := some "sop.docx" },
   { page_content := "Arrivals over 15 minutes late may be rescheduled.", source := some "sop.docx" },
   { page_content := "Close the call politely.", source := some "sop.docx" }]

/-! # Theorems -/

/-! ## Agent graph lemmas -/

/-- The canned error prompt is a non-empty string. -/
theorem get_prompt_error_ne : get_prompt "error" ≠ "" := by decide

/-- Turn-output messages are not system messages. -/
theorem Msg.not_system_of_turnOutput {m : Msg} (h : m.isTurnOutput = true) :
    m.isSystem = false := by
  cases m <;> simp_all [Msg.isTurnOutput, Msg.isSystem]

/-- `agent_node` only ever appends (an assistant reply) to the message log. -/
theorem agent_node_messages (model : ModelFn) (st : AgentStateL) :
    ∃ e, (agent_node model st).messages = st.messages ++ e
      ∧ ∀ m ∈ e, m.isTurnOutput = true := by
  unfold agent_node
  cases model (ensureSystem st.messages) with
  | ok r =>
      refine ⟨[Msg.ai r.1 r.2], rfl, ?_⟩
      intro m hm
      simp only [List.mem_singleton] at hm
      subst hm
      rfl
  | error e => exact ⟨[], by simp, by simp⟩

/-- `tool_node` only ever appends (tool result messages) to the message log. -/
theorem tool_node_messages (tools : ToolsFn) (st : AgentStateL) :
    ∃ e, (tool_node tools st).messages = st.messages ++ e
      ∧ ∀ m ∈ e, m.isTurnOutput = true := by
  cases h : st.messages.getLast? with
  | none => exact ⟨[], by simp [tool_node, h], by simp⟩
  | some m =>
      cases m with
      | ai c tcs =>
          cases tcs with
          | nil => exact ⟨[], by simp [tool_node, h], by simp⟩
          | cons tc tcs =>
              cases htool : tools (tc :: tcs) with
              | ok outs =>
                  refine ⟨outs.map Msg.tool, by simp [tool_node, h, htool], ?_⟩
                  intro m hm
                  obtain ⟨s, -, rfl⟩ := List.mem_map.mp hm
                  rfl
              | error e => exact ⟨[], by simp [tool_node, h, htool], by simp⟩
      | system c => exact ⟨[], by simp [tool_node, h], by simp⟩
      | human c => exact ⟨[], by simp [tool_node, h], by simp⟩
      | tool c => exact ⟨[], by simp [tool_node, h], by simp⟩

/-- `response_node` never touches the message log. -/
theorem response_node_messages (st : AgentStateL) :
    (response_node st).messages = st.messages := by
  unfold response_node
  cases st.messages.getLast? <;> rfl

/-- `response_node` always produces a non-empty response string. -/
theorem response_node_response (st : AgentStateL) :
    ∃ s, (response_node st).response = some s ∧ s ≠ "" := by
  unfold response_node
  cases st.messages.getLast? with
  | none => exact ⟨get_prompt "error", rfl, get_prompt_error_ne⟩
  | some m =>
      refine ⟨if m.content = "" then get_prompt "error" else m.content, rfl, ?_⟩
      split
      · exact get_prompt_error_ne
      · assumption

/-- A normally terminating graph run only appends assistant/tool messages to
the entry state's log, and terminates with a non-empty response string. -/
theorem agentGraphRun_ok (model : ModelFn) (tools : ToolsFn) :
    ∀ (fuel : Nat) (node : GNode) (st : AgentStateL) (rounds : Nat)
      (res : AgentStateL) (r' : Nat),
      agentGraphRun model tools fuel node st rounds = .ok (res, r') →
      (∃ extra, res.messages = st.messages ++ extra
          ∧ ∀ m ∈ extra, m.isTurnOutput = true)
        ∧ ∃ s, res.response = some s ∧ s ≠ "" := by
  intro fuel
  induction fuel with
  | zero =>
      intro node st rounds res r' h
      simp [agentGraphRun] at h
  | succ fuel ih =>
      intro node st rounds res r' h
      cases node with
      | agent =>
          rw [agentGraphRun] at h
          obtain ⟨e1, he1, ht1⟩ := agent_node_messages model st
          split at h <;>
            · obtain ⟨⟨e2, he2, ht2⟩, hresp⟩ := ih _ _ _ _ _ h
              refine ⟨⟨e1 ++ e2, ?_, ?_⟩, hresp⟩
              · rw [he2, he1, List.append_assoc]
              · intro m hm
                rcases List.mem_append.mp hm with hm | hm
                · exact ht1 m hm
                · exact ht2 m hm
      | tools =>
          rw [agentGraphRun] at h
          obtain ⟨e1, he1, ht1⟩ := tool_node_messages tools st
          obtain ⟨⟨e2, he2, ht2⟩, hresp⟩ := ih _ _ _ _ _ h
          refine ⟨⟨e1 ++ e2, ?_, ?_⟩, hresp⟩
          · rw [he2, he1, List.append_assoc]
          · intro m hm
            rcases List.mem_append.mp hm with hm | hm
            · exact ht1 m hm
            · exact ht2 m hm
      | response =>
          rw [agentGraphRun] at h
          simp only [Except.ok.injEq, Prod.mk.injEq] at h
          obtain ⟨rfl, rfl⟩ := h
          exact ⟨⟨[], by rw [response_node_messages, List.append_nil],
                  by simp⟩, response_node_response st⟩

/-! ## C1: run_agent_with_history never raises and returns a non-empty reply -/

set_option maxRecDepth 10000 in
/-- C1 (counterexample to the claim as stated): the claim's parenthetical
says the response is the canned fallback when an error occurred.  With a
model whose invocation raises (`modelDown`), query "hi" and empty history,
the exception is caught inside `agent_node`, but `response_node` then
overwrites the fallback with the last message's content — the echoed user
query "hi" — so the returned response is not the canned fallback even though
a model error occurred. -/
theorem claim_c1_counterexample :
    (run_agent_with_history modelDown toolsEcho 25 "hi" []).1 = some "hi"
      ∧ (run_agent_with_history modelDown toolsEcho 25 "hi" []).1
          ≠ some (get_prompt "error") := by
  refine ⟨by decide, by decide⟩

/-- C1 (amended): for every model/tool behavior (including raising ones),
every query and every input history, `run_agent_with_history` returns
normally with a pair whose response is a (present and) non-empty string and
whose updated history is a list; no exception propagates.  (The "canned
fallback on error" parenthetical does not hold in general — see the
counterexample.) -/
theorem claim_c1 (model : ModelFn) (tools : ToolsFn) (fuel : Nat)
    (query : String) (history : List Msg) :
    ∃ r, (run_agent_with_history model tools fuel query history).1 = some r
      ∧ r ≠ "" := by
  unfold run_agent_with_history
  cases h : agent_invoke model tools fuel (initTurnState query history) with
  | ok p =>
      obtain ⟨-, s, hs, hne⟩ :=
        agentGraphRun_ok model tools fuel GNode.agent (initTurnState query history) 0 p.1 p.2
          (show agent_invoke model tools fuel (initTurnState query history)
              = Except.ok (p.1, p.2) by rw [h])
      exact ⟨s, by simp [hs], hne⟩
  | error e => exact ⟨get_prompt "error", rfl, get_prompt_error_ne⟩

/-! ## C2: no 4-6 round-trip cap is enforced in the orchestrator -/

set_option maxRecDepth 40000 in
/-- C2 (the code at the failing input): `build_agent_graph` wires the
agent/tools cycle with no iteration bound of its own and `agent.invoke` is
called without a recursion-limit configuration, so with a model that
requests a tool call on every invocation a turn performs 12 tool round
trips — more than the claimed cap of 4-6 — before the langgraph runtime's
default recursion limit (25 super-steps) raises GraphRecursionError, which
the outer handler of `run_agent_with_history` converts into the fallback
pair.  Termination is thus forced by the runtime default, not by a 4-6
bound in the orchestrator. -/
theorem claim_c2 :
    runToolRounds modelAlwaysTool toolsEcho 25 "hi" [] = 12
      ∧ ¬ runToolRounds modelAlwaysTool toolsEcho 25 "hi" [] ≤ 6
      ∧ run_agent_with_history modelAlwaysTool toolsEcho 25 "hi" []
          = (some (get_prompt "error"), []) := by
  refine ⟨by decide, by decide, by decide⟩

/-! ## C3: the input history survives verbatim as a prefix of the output -/

/-- C3: on every normally terminating turn, the updated history is exactly
the non-system messages of the input history, in order, then the new user
message, then only assistant/tool messages produced during the turn; in
particular for a system-message-free input history (as produced by previous
turns) the input history itself is a verbatim prefix, so across turns the
history only grows and no prior message is mutated or reordered. -/
theorem claim_c3 (model : ModelFn) (tools : ToolsFn) (fuel : Nat)
    (query : String) (history : List Msg) (res : AgentStateL) (r' : Nat)
    (h : agent_invoke model tools fuel (initTurnState query history) = .ok (res, r')) :
    ∃ extra,
      ((run_agent_with_history model tools fuel query history).2
          = history.filter (fun m => !m.isSystem) ++ Msg.human query :: extra)
        ∧ (∀ m ∈ extra, m.isTurnOutput = true)
        ∧ ((∀ m ∈ history, m.isSystem = false) →
            (run_agent_with_history model tools fuel query history).2
              = history ++ Msg.human query :: extra) := by
  obtain ⟨⟨extra, hmsg, hout⟩, -⟩ :=
    agentGraphRun_ok model tools fuel GNode.agent (initTurnState query history) 0 res r' h
  have hfilter : (run_agent_with_history model tools fuel query history).2
      = history.filter (fun m => !m.isSystem) ++ Msg.human query :: extra := by
    unfold run_agent_with_history
    rw [h]
    show res.messages.filter (fun m => !m.isSystem) = _
    rw [hmsg]
    show (Msg.system SYSTEM_PROMPT :: (history ++ [Msg.human query]) ++ extra).filter
        (fun m => !m.isSystem) = _
    have hex : extra.filter (fun m => !m.isSystem) = extra :=
      List.filter_eq_self.mpr (fun m hm => by
        simp [Msg.not_system_of_turnOutput (hout m hm)])
    rw [List.cons_append, List.filter_cons, List.filter_append, List.filter_append, hex]
    simp [Msg.isSystem]
  refine ⟨extra, hfilter, hout, fun hh => ?_⟩
  rw [hfilter, List.filter_eq_self.mpr (fun m hm => by simp [hh m hm])]

/-- C3 witness: a concrete turn (plain model reply, two prior messages) on
which the theorem instantiates: the returned history is the prior history,
the new user message, then the turn's assistant reply. -/
theorem claim_c3_witness :
    ∃ extra,
      ((run_agent_with_history modelPlain toolsEcho 25 "Do you take walk-ins?" histDemo).2
          = histDemo.filter (fun m => !m.isSystem) ++ Msg.human "Do you take walk-ins?" :: extra)
        ∧ (∀ m ∈ extra, m.isTurnOutput = true)
        ∧ ((∀ m ∈ histDemo, m.isSystem = false) →
            (run_agent_with_history modelPlain toolsEcho 25 "Do you take walk-ins?" histDemo).2
              = histDemo ++ Msg.human "Do you take walk-ins?" :: extra) :=
  claim_c3 modelPlain toolsEcho 25 "Do you take walk-ins?" histDemo _ _ rfl

/-! ## C4: recording of the failed turn's user message -/

set_option maxRecDepth 40000 in
/-- C4 (counterexample to the claim as stated): with a tool executor whose
execution always raises and a model that keeps requesting the tool, the
turn's exception reaches `run_agent_with_history`'s own handler (via the
runtime recursion limit after the repeated tool failures), which returns
`(fallback, history or [])`: for an empty input history the returned history
is `[]` and does not record the failed turn's user message "hi". -/
theorem claim_c4_counterexample :
    (run_agent_with_history modelAlwaysTool toolsDown 25 "hi" []).2 = []
      ∧ Msg.human "hi" ∉ (run_agent_with_history modelAlwaysTool toolsDown 25 "hi" []).2
      ∧ (run_agent_with_history modelAlwaysTool toolsDown 25 "hi" []).1
          = some (get_prompt "error") := by
  refine ⟨by decide, by decide, by decide⟩

/-- C4 (amended): on every turn, either the exception reached
`run_agent_with_history`'s own handler — the reply is the canned fallback
and the returned history is the input history unchanged, without the failed
turn's user message — or the graph run completed (as it does when a model
failure is caught inside `agent_node`) and the returned history does record
the turn's user message. -/
theorem claim_c4 (model : ModelFn) (tools : ToolsFn) (fuel : Nat)
    (query : String) (history : List Msg) :
    ((run_agent_with_history model tools fuel query history).2 = history
        ∧ (run_agent_with_history model tools fuel query history).1
            = some (get_prompt "error"))
      ∨ Msg.human query ∈ (run_agent_with_history model tools fuel query history).2 := by
  cases h : agent_invoke model tools fuel (initTurnState query history) with
  | error e =>
      left
      unfold run_agent_with_history
      rw [h]
      exact ⟨rfl, rfl⟩
  | ok p =>
      right
      obtain ⟨⟨extra, hmsg, -⟩, -⟩ :=
        agentGraphRun_ok model tools fuel GNode.agent (initTurnState query history) 0 p.1 p.2
          (show agent_invoke model tools fuel (initTurnState query history)
              = Except.ok (p.1, p.2) by rw [h])
      unfold run_agent_with_history
      rw [h]
      show Msg.human query ∈ p.1.messages.filter (fun m => !m.isSystem)
      rw [hmsg]
      refine List.mem_filter.mpr ⟨?_, by simp [Msg.isSystem]⟩
      show Msg.human query ∈ Msg.system SYSTEM_PROMPT :: (history ++ [Msg.human query]) ++ extra
      simp

/-! ## Chunk position metadata (C5) -/

/-- The enriched list has one entry per chunk. -/
theorem enrich_length (now : String) (chunks : List RawChunk) :
    (enrich now chunks).length = chunks.length := by
  simp [enrich]

/-- The enriched entry at position `i` is the enrichment of the chunk at
position `i`. -/
theorem enrich_get (now : String) (chunks : List RawChunk) (i : Nat)
    (h : i < (enrich now chunks).length) (h' : i < chunks.length) :
    (enrich now chunks).get ⟨i, h⟩
      = enrichOne chunks.length now i (chunks.get ⟨i, h'⟩) := by
  simp [enrich, List.get_eq_getElem, List.getElem_map, List.getElem_enum]

/-- `positionOf` is "beginning" exactly when the fractional offset is below
one fifth. -/
theorem positionOf_beginning (i total : Nat) :
    positionOf i total = "beginning" ↔ (i : Rat) / (total : Rat) < 1/5 := by
  unfold positionOf
  split_ifs with h1 h2
  · simp only [true_iff]
    linarith
  · constructor
    · intro hc
      exact absurd hc (by decide)
    · intro hx
      exact absurd (by linarith : (i : Rat) / (total : Rat) * 100 < 20) h1
  · constructor
    · intro hc
      exact absurd hc (by decide)
    · intro hx
      exact absurd (by linarith : (i : Rat) / (total : Rat) * 100 < 20) h1

/-- `positionOf` is "end" exactly when the fractional offset is above four
fifths. -/
theorem positionOf_end (i total : Nat) :
    positionOf i total = "end" ↔ 4/5 < (i : Rat) / (total : Rat) := by
  unfold positionOf
  split_ifs with h1 h2
  · constructor
    · intro hc
      exact absurd hc (by decide)
    · intro hx
      exact absurd (by linarith : (20 : Rat) < 20) (by simp)
  · simp only [true_iff]
    linarith
  · constructor
    · intro hc
      exact absurd hc (by decide)
    · intro hx
      exact absurd (by linarith : (i : Rat) / (total : Rat) * 100 > 80) h2

/-- `positionOf` is "middle" exactly when the fractional offset is between
one fifth and four fifths (inclusive). -/
theorem positionOf_middle (i total : Nat) :
    positionOf i total = "middle"
      ↔ (1/5 ≤ (i : Rat) / (total : Rat) ∧ (i : Rat) / (total : Rat) ≤ 4/5) := by
  unfold positionOf
  split_ifs with h1 h2
  · constructor
    · intro hc
      exact absurd hc (by decide)
    · intro hx
      exact absurd (by linarith : (20 : Rat) < 20) (by simp)
  · constructor
    · intro hc
      exact absurd hc (by decide)
    · intro hx
      exact absurd (by linarith : (80 : Rat) < 80) (by simp)
  · simp only [true_iff]
    constructor <;> [linarith; linarith]

/-- C5: every chunk enriched in one build carries the position label
determined by its fractional offset `i / total_chunks` in the indexed
document stream: "beginning" for the first fifth, "end" past the last
fifth threshold, "middle" otherwise. -/
theorem claim_c5 (now : String) (chunks : List RawChunk) (i : Nat)
    (h : i < (enrich now chunks).length) :
    (((enrich now chunks).get ⟨i, h⟩).metadata.position = "beginning"
        ↔ (i : Rat) / (chunks.length : Rat) < 1/5)
      ∧ (((enrich now chunks).get ⟨i, h⟩).metadata.position = "end"
        ↔ 4/5 < (i : Rat) / (chunks.length : Rat))
      ∧ (((enrich now chunks).get ⟨i, h⟩).metadata.position = "middle"
        ↔ (1/5 ≤ (i : Rat) / (chunks.length : Rat)
            ∧ (i : Rat) / (chunks.length : Rat) ≤ 4/5)) := by
  have h' : i < chunks.length := enrich_length now chunks ▸ h
  rw [enrich_get now chunks i h h']
  exact ⟨positionOf_beginning i chunks.length, positionOf_end i chunks.length,
         positionOf_middle i chunks.length⟩

/-- C5 witness: in the five-chunk demonstration build the first chunk
(offset 0/5) is labelled "beginning". -/
theorem claim_c5_witness :
    ((enrich "2026-10-12T00:00:00" demoChunks).get
        ⟨0, by rw [enrich_length]; decide⟩).metadata.position = "beginning" :=
  (claim_c5 "2026-10-12T00:00:00" demoChunks 0
      (by rw [enrich_length]; decide)).1.mpr (by norm_num)

/-! ## Chunk id and char-count invariants (C6) -/

/-- The digit list of `digitsAux` reconstructs its input when the fuel
suffices. -/
theorem fromDigits_digitsAux :
    ∀ (fuel n : Nat), n ≤ fuel → fromDigits (digitsAux fuel n) = n := by
  intro fuel
  induction fuel with
  | zero =>
      intro n hn
      interval_cases n
      rfl
  | succ fuel ih =>
      intro n hn
      cases n with
      | zero => rfl
      | succ m =>
          show fromDigits ((m + 1) % 10 :: digitsAux fuel ((m + 1) / 10)) = m + 1
          have hdiv : (m + 1) / 10 ≤ fuel := by
            have := Nat.div_lt_self (Nat.succ_pos m) (by norm_num : 1 < 10)
            omega
          show (m + 1) % 10 + 10 * fromDigits (digitsAux fuel ((m + 1) / 10)) = m + 1
          rw [ih _ hdiv]
          omega

/-- Decimal digits reconstruct their number. -/
theorem fromDigits_decDigits (n : Nat) : fromDigits (decDigits n) = n :=
  fromDigits_digitsAux n n le_rfl

/-- Every digit produced by `digitsAux` is below 10. -/
theorem digitsAux_lt :
    ∀ (fuel n : Nat), ∀ d ∈ digitsAux fuel n, d < 10 := by
  intro fuel
  induction fuel with
  | zero =>
      intro n d hd
      simp [digitsAux] at hd
  | succ fuel ih =>
      intro n d hd
      cases n with
      | zero => simp [digitsAux] at hd
      | succ m =>
          rw [show digitsAux (fuel + 1) (m + 1)
                = (m + 1) % 10 :: digitsAux fuel ((m + 1) / 10) from rfl] at hd
          rcases List.mem_cons.mp hd with rfl | hd
          · exact Nat.mod_lt _ (by norm_num)
          · exact ih _ _ hd

/-- Reading a rendered digit character back gives the digit. -/
theorem charVal_digitChar {d : Nat} (h : d < 10) : charVal (digitChar d) = d := by
  interval_cases d <;> decide

/-- Reading the rendered digit characters back gives the digit list. -/
theorem map_charVal_renderNat (n : Nat) :
    (renderNat n).map charVal = (decDigits n).reverse := by
  unfold renderNat
  rw [List.map_map]
  have : ∀ d ∈ (decDigits n).reverse, (charVal ∘ digitChar) d = id d := by
    intro d hd
    exact charVal_digitChar (digitsAux_lt n n d (List.mem_reverse.mp hd))
  rw [List.map_congr_left this, List.map_id]

/-- Appended high-order zero digits do not change the value. -/
theorem fromDigits_append_zeros (l : List Nat) (k : Nat) :
    fromDigits (l ++ List.replicate k 0) = fromDigits l := by
  induction l with
  | nil =>
      show fromDigits (List.replicate k 0) = 0
      induction k with
      | zero => rfl
      | succ k ihk =>
          show (0 : Nat) + 10 * fromDigits (List.replicate k 0) = 0
          rw [ihk]
  | cons d l ih =>
      show d + 10 * fromDigits (l ++ List.replicate k 0) = d + 10 * fromDigits l
      rw [ih]

/-- Parsing the zero-padded rendering recovers the number. -/
theorem parse_pad3 (n : Nat) : fromDigits (((pad3 n).map charVal).reverse) = n := by
  unfold pad3
  rw [List.map_append, List.map_replicate, show charVal '0' = 0 from rfl,
      map_charVal_renderNat, List.reverse_append, List.reverse_reverse,
      List.reverse_replicate, fromDigits_append_zeros, fromDigits_decDigits]

/-- The sequence number embedded in a generated chunk id. -/
theorem idNum_chunkIdOf (n : Nat) : idNum (chunkIdOf n) = n := by
  show fromDigits ((((('c' :: 'h' :: 'u' :: 'n' :: 'k' :: '_' :: pad3 n)).drop 6).map
      charVal).reverse) = n
  exact parse_pad3 n

/-- The chunk id assigned at position `i` of a build. -/
theorem enrich_chunk_id (now : String) (chunks : List RawChunk) (i : Nat)
    (h : i < (enrich now chunks).length) (h' : i < chunks.length) :
    ((enrich now chunks).get ⟨i, h⟩).metadata.chunk_id = chunkIdOf (i + 1) := by
  rw [enrich_get now chunks i h h']
  rfl

/-- C6: every chunk enriched in one build satisfies
`char_count = len(content)`, and the assigned chunk ids are pairwise
distinct and carry strictly increasing sequence numbers along the chunk
order. -/
theorem claim_c6 (now : String) (chunks : List RawChunk) :
    (∀ d ∈ enrich now chunks, d.metadata.char_count = d.page_content.length)
      ∧ (∀ i j (hi : i < (enrich now chunks).length)
            (hj : j < (enrich now chunks).length), i ≠ j →
          ((enrich now chunks).get ⟨i, hi⟩).metadata.chunk_id
            ≠ ((enrich now chunks).get ⟨j, hj⟩).metadata.chunk_id)
      ∧ (∀ i j (hi : i < (enrich now chunks).length)
            (hj : j < (enrich now chunks).length), i < j →
          idNum (((enrich now chunks).get ⟨i, hi⟩).metadata.chunk_id)
            < idNum (((enrich now chunks).get ⟨j, hj⟩).metadata.chunk_id)) := by
  refine ⟨?_, ?_, ?_⟩
  · intro d hd
    obtain ⟨p, -, rfl⟩ := List.mem_map.mp hd
    rfl
  · intro i j hi hj hne heq
    have hi' : i < chunks.length := enrich_length now chunks ▸ hi
    have hj' : j < chunks.length := enrich_length now chunks ▸ hj
    rw [enrich_chunk_id now chunks i hi hi', enrich_chunk_id now chunks j hj hj'] at heq
    have := congrArg idNum heq
    rw [idNum_chunkIdOf, idNum_chunkIdOf] at this
    omega
  · intro i j hi hj hlt
    have hi' : i < chunks.length := enrich_length now chunks ▸ hi
    have hj' : j < chunks.length := enrich_length now chunks ▸ hj
    rw [enrich_chunk_id now chunks i hi hi', enrich_chunk_id now chunks j hj hj',
        idNum_chunkIdOf, idNum_chunkIdOf]
    omega

/-- C6 witness: in the five-chunk demonstration build, the ids of the first
two chunks differ, their sequence numbers increase, and every chunk's
`char_count` equals its content length. -/
theorem claim_c6_witness :
    ((enrich "2026-10-12T00:00:00" demoChunks).get
          ⟨0, by rw [enrich_length]; decide⟩).metadata.chunk_id
        ≠ ((enrich "2026-10-12T00:00:00" demoChunks).get
          ⟨1, by rw [enrich_length]; decide⟩).metadata.chunk_id
      ∧ idNum (((enrich "2026-10-12T00:00:00" demoChunks).get
          ⟨0, by rw [enrich_length]; decide⟩).metadata.chunk_id)
        < idNum (((enrich "2026-10-12T00:00:00" demoChunks).get
          ⟨1, by rw [enrich_length]; decide⟩).metadata.chunk_id)
      ∧ ∀ d ∈ enrich "2026-10-12T00:00:00" demoChunks,
          d.metadata.char_count = d.page_content.length :=
  ⟨(claim_c6 "2026-10-12T00:00:00" demoChunks).2.1 0 1
      (by rw [enrich_length]; decide) (by rw [enrich_length]; decide) (by decide),
   (claim_c6 "2026-10-12T00:00:00" demoChunks).2.2 0 1
      (by rw [enrich_length]; decide) (by rw [enrich_length]; decide) (by decide),
   (claim_c6 "2026-10-12T00:00:00" demoChunks).1⟩

/-! ## C7: get_procedure -/

/-- C7 (counterexample to the claim as stated): `get_procedure` does not
perform a single-result search.  With a probe retriever that reports the
number of results requested of it as the returned chunk's content, and the
configured default top-K of 3, the topic "late arrival" yields a procedure
built from a 3-result request — not from a 1-result request as the claim's
"single-result search" states. -/
theorem claim_c7_counterexample :
    get_procedure probeRetrieve 3 "late arrival"
        = "Procedure for 'late arrival':\n\n3"
      ∧ get_procedure probeRetrieve 3 "late arrival"
          ≠ "Procedure for 'late arrival':\n\n1" := by
  refine ⟨by decide, by decide⟩

/-- C7 (amended): for every topic, `get_procedure` rewrites the lowercased
topic through the fixed `topic_queries` table (falling back to the raw topic
when unrecognized), performs one search at the configured default top-K, and
returns the top chunk's stripped content behind the
`Procedure for '<topic>':` banner when the search returns at least one
chunk, and the "no procedure found" message naming the topic otherwise. -/
theorem claim_c7 (retrieve : String → Nat → List SDoc) (cfgK : Nat)
    (topic : String) :
    get_procedure retrieve cfgK topic
      = match retrieve ((topic_queries.lookup topic.toLower).getD topic) cfgK with
        | [] => "No procedure found for topic: " ++ topic
        | d :: _ => "Procedure for '" ++ topic ++ "':\n\n" ++ pyStrip d.page_content :=
  rfl

/-! ## C8: search_sop_tool formatting -/

/-- C8: for every query, the search tool returns the fixed no-results
sentinel when the retriever returns nothing, and otherwise the separator-
joined list of one block per retrieved chunk, each block being the chunk id
in square brackets (or `result_i` when the chunk has no id) followed by the
chunk's stripped content. -/
theorem claim_c8 (retrieve : String → Nat → List SDoc) (cfgK : Nat)
    (query : String) :
    (retrieve query cfgK = [] →
      search_sop_tool retrieve cfgK query
        = "No relevant procedures found for this query.")
    ∧ (∀ d ds, retrieve query cfgK = d :: ds →
        ∃ blocks, search_sop_tool retrieve cfgK query
            = String.intercalate "\n\n---\n\n" blocks
          ∧ blocks.length = (d :: ds).length
          ∧ ∀ i (hi : i < (d :: ds).length),
              blocks[i]? = some ("["
                ++ (((d :: ds).get ⟨i, hi⟩).chunk_id.getD
                      ("result_" ++ Nat.repr (i + 1)))
                ++ "]\n" ++ pyStrip ((d :: ds).get ⟨i, hi⟩).page_content)) := by
  constructor
  · intro h
    simp only [search_sop_tool, search_sop, get_retriever, effectiveK]
    rw [h]
    rfl
  · intro d ds h
    refine ⟨((d :: ds).enum.map (fun p =>
        "[" ++ (p.2.chunk_id.getD ("result_" ++ Nat.repr (p.1 + 1))) ++ "]\n"
          ++ pyStrip p.2.page_content)), ?_, by simp, ?_⟩
    · simp only [search_sop_tool, search_sop, get_retriever, effectiveK]
      rw [h]
      rfl
    · intro i hi
      have hbound : i < (d :: ds).enum.length := by
        rw [List.enum_length]
        exact hi
      rw [List.getElem?_map, List.getElem?_eq_getElem hbound]
      have henum : (d :: ds).enum[i] = (i, (d :: ds).get ⟨i, hi⟩) := by
        simp [List.getElem_enum, List.get_eq_getElem]
      rw [henum]
      rfl

/-- C8 witness: on a one-chunk index, the tool output is the single
formatted block; on an empty index it is the sentinel. -/
theorem claim_c8_witness :
    search_sop_tool demoRetrieve 3 "walk in"
        = "[chunk_001]\nWalk-ins are welcome during business hours."
      ∧ search_sop_tool emptyRetrieve 3 "walk in"
          = "No relevant procedures found for this query." := by
  constructor
  · obtain ⟨blocks, hout, hlen, hblock⟩ :=
      (claim_c8 demoRetrieve 3 "walk in").2
        { page_content := " Walk-ins are welcome during business hours. ",
          chunk_id := some "chunk_001" } [] rfl
    rw [hout]
    have h0 := hblock 0 (by decide)
    cases blocks with
    | nil => simp at hlen
    | cons b bs =>
        cases bs with
        | nil =>
            simp only [List.getElem?_cons_zero] at h0
            obtain rfl := Option.some.inj h0
            decide
        | cons b2 bs2 => simp at hlen
  · exact (claim_c8 emptyRetrieve 3 "walk in").1 rfl

/-! ## C9: bounded embedding-initialization retry, hard build failure -/

/-- The attempt loop executes at most as many attempts as it is given. -/
theorem runAttempts_count (outcomes : Nat → AttemptOutcome) :
    ∀ l, (runAttempts outcomes l).2.2 ≤ l.length := by
  intro l
  induction l with
  | nil => exact Nat.le_refl 0
  | cons a rest ih =>
      show (runAttempts outcomes (a :: rest)).2.2 ≤ rest.length + 1
      rw [runAttempts]
      cases outcomes a with
      | returned d =>
          by_cases hd : 0 < d
          · simp [hd]
          · simp only [hd, if_false]
            omega
      | raised msg =>
          cases rest with
          | nil => simpa using ih
          | cons b rest2 =>
              simp only
              omega

/-- Every sleep the attempt loop performs is the fixed retry delay. -/
theorem runAttempts_sleeps (outcomes : Nat → AttemptOutcome) :
    ∀ l, ∀ s ∈ (runAttempts outcomes l).2.1, s = RETRY_DELAY := by
  intro l
  induction l with
  | nil => intro s hs; simp [runAttempts] at hs
  | cons a rest ih =>
      intro s hs
      rw [runAttempts] at hs
      cases houtcome : outcomes a with
      | returned d =>
          rw [houtcome] at hs
          by_cases hd : 0 < d
          · simp [hd] at hs
          · simp only [hd, if_false] at hs
            exact ih s hs
      | raised msg =>
          rw [houtcome] at hs
          cases rest with
          | nil => exact ih s hs
          | cons b rest2 =>
              simp only [List.mem_cons] at hs
              rcases hs with rfl | hs
              · rfl
              · exact ih s hs

/-- If every given attempt fails, the loop reports failure. -/
theorem runAttempts_fail (outcomes : Nat → AttemptOutcome) :
    ∀ l, (∀ a ∈ l, (outcomes a).isFailure = true) →
      (runAttempts outcomes l).1 = false := by
  intro l
  induction l with
  | nil => intro _; rfl
  | cons a rest ih =>
      intro hall
      have ha := hall a (List.mem_cons_self a rest)
      rw [runAttempts]
      cases houtcome : outcomes a with
      | returned d =>
          rw [houtcome] at ha
          have hd : d = 0 := by simpa [AttemptOutcome.isFailure] using ha
          subst hd
          simp only [Nat.lt_irrefl, if_false]
          exact ih (fun b hb => hall b (List.mem_cons_of_mem a hb))
      | raised msg =>
          cases rest with
          | nil => exact ih (fun b hb => absurd hb (List.not_mem_nil b))
          | cons b rest2 =>
              exact ih (fun c hc => hall c (List.mem_cons_of_mem a hc))

/-- C9: embedding initialization runs at most `MAX_RETRIES = 3` attempts,
every delay it inserts between attempts is the fixed `RETRY_DELAY = 2`
seconds, failure of all three attempts makes initialization report failure,
and an initialization failure makes the whole build run return failure with
no index created or written. -/
theorem claim_c9 (env : PipelineEnv) :
    (initEmbeddings env.outcomes).2.2 ≤ MAX_RETRIES
      ∧ (∀ s ∈ (initEmbeddings env.outcomes).2.1, s = RETRY_DELAY)
      ∧ ((∀ a, 1 ≤ a → a ≤ MAX_RETRIES → (env.outcomes a).isFailure = true) →
          (initEmbeddings env.outcomes).1 = false)
      ∧ ((initEmbeddings env.outcomes).1 = false →
          sopIndexerRun env = ⟨false, false, false⟩) := by
  have hlist : (List.range MAX_RETRIES).map (fun i => i + 1) = [1, 2, 3] := rfl
  refine ⟨?_, ?_, ?_, ?_⟩
  · show (runAttempts env.outcomes ((List.range MAX_RETRIES).map (fun i => i + 1))).2.2
        ≤ MAX_RETRIES
    rw [hlist]
    exact runAttempts_count env.outcomes [1, 2, 3]
  · show ∀ s ∈ (runAttempts env.outcomes
        ((List.range MAX_RETRIES).map (fun i => i + 1))).2.1, s = RETRY_DELAY
    rw [hlist]
    exact runAttempts_sleeps env.outcomes [1, 2, 3]
  · intro hall
    show (runAttempts env.outcomes ((List.range MAX_RETRIES).map (fun i => i + 1))).1
        = false
    rw [hlist]
    refine runAttempts_fail env.outcomes [1, 2, 3] ?_
    intro a ha
    simp only [List.mem_cons, List.not_mem_nil, or_false] at ha
    rcases ha with rfl | rfl | rfl <;>
      exact hall _ (by omega) (by show _ ≤ 3; omega)
  · intro hfail
    unfold sopIndexerRun
    split_ifs with h1 h2 h3 <;> rfl

/-- C9 witness: with an embedding service whose every attempt raises, the
loop stays within its 3 attempts and the build run returns failure with no
index created or saved. -/
theorem claim_c9_witness :
    sopIndexerRun envEmbedDown = ⟨false, false, false⟩
      ∧ (initEmbeddings envEmbedDown.outcomes).2.2 ≤ MAX_RETRIES :=
  ⟨(claim_c9 envEmbedDown).2.2.2
      ((claim_c9 envEmbedDown).2.2.1 (fun _ _ _ => rfl)),
   (claim_c9 envEmbedDown).1⟩

/-! ## C10: falsy top_k falls back to the configured default -/

/-- C10: a falsy `top_k` (0 or None) resolves to the configured default in
both `get_retriever` and `search_sop_with_scores`: the two calls behave
identically for `top_k = 0` and `top_k = None`, and whenever the configured
default is positive the effective number of requested results is positive —
a caller cannot request zero results by passing `top_k = 0`. -/
theorem claim_c10 (retrieve : String → Nat → List SDoc)
    (vs : String → Nat → List (SDoc × Rat)) (cfgK : Nat) (query : String) :
    get_retriever retrieve (some 0) cfgK = get_retriever retrieve none cfgK
      ∧ search_sop_with_scores vs cfgK query (some 0)
          = search_sop_with_scores vs cfgK query none
      ∧ effectiveK (some 0) cfgK = cfgK
      ∧ effectiveK none cfgK = cfgK
      ∧ (0 < cfgK → 0 < effectiveK (some 0) cfgK) :=
  ⟨rfl, rfl, rfl, rfl, fun h => h⟩

/-- C10 witness: at the default configuration top-K of 3, `top_k = 0`
resolves to 3 results and the retriever built for `top_k = 0` equals the
one built for `top_k = None`. -/
theorem claim_c10_witness :
    0 < 3
      ∧ 0 < effectiveK (some 0) 3
      ∧ get_retriever demoRetrieve (some 0) 3 = get_retriever demoRetrieve none 3 :=
  ⟨by decide,
   (claim_c10 demoRetrieve demoScored 3 "walk in").2.2.2.2 (by decide),
   (claim_c10 demoRetrieve demoScored 3 "walk in").1⟩
